import Mathlib

/-!
Formal model of the jarvis repository modules
`jarvis/db/figshare.py`, `jarvis/io/phono3py/inputs.py` and
`jarvis/io/phono3py/outputs.py`.

Each Python function relevant to the verified properties is shallowly
embedded as a Lean definition translated from the source.  I/O effects
(HTTP fetches, file reads/writes) are made explicit: the filesystem is an
association list from paths to contents, network downloads are an oracle
function from URLs to zip members, and performed effects are recorded in a
trace.  Python exceptions are modelled with `Except`; a local variable
that may be unbound at a use site is modelled with `Option` (reading
`none` corresponds to Python's `NameError`/`UnboundLocalError`).
-/

/-! ## `jarvis/db/figshare.py` : the dataset dispatch table -/

/-- Outcome of a call to `datasets(dataset)` in `figshare.py`, observed at
the final `return url, js_tag` statement.  `valueErrorConstructed` records
whether the `else` branch evaluated the expression
`ValueError("Dataset doesnt exist", dataset)`; `valueErrorRaised` records
whether that exception object was actually raised (the source has no
`raise`, so this is always `false`).  `url` and `js_tag` are the local
variables at the return statement, `none` meaning never assigned.
The `stm_2d` branch takes a separate network/image code path that assigns
neither variable; it is recorded by the `stm2dBranch` flag. -/
structure DatasetsOutcome where
  valueErrorConstructed : Bool
  valueErrorRaised : Bool
  url : Option String
  js_tag : Option String
  stm2dBranch : Bool
deriving DecidableEq

/-- The outcome of a catalogued branch of `datasets`: both locals assigned,
no exception object constructed. -/
def catalogHit (u t : String) : DatasetsOutcome :=
  ⟨false, false, some u, some t, false⟩

/-- Embedding of `datasets` (`figshare.py` lines 20-132): the `if`/`elif`
dispatch on the dataset name.  Each catalogued branch assigns `url` and
`js_tag`; the `else` branch constructs (but does not raise) a `ValueError`
and leaves both variables unassigned. -/
def datasets (dataset : String) : DatasetsOutcome :=
  if dataset = "dft_2d" then
    catalogHit "https://ndownloader.figshare.com/files/22471019" "jdft_2d-4-26-2020.json"
  else if dataset = "dft_3d" then
    catalogHit "https://ndownloader.figshare.com/files/22471022" "jdft_3d-4-26-2020.json"
  else if dataset = "stm_2d" then
    ⟨false, false, none, none, true⟩
  else if dataset = "cfid_3d" then
    catalogHit "https://ndownloader.figshare.com/files/22470818" "jml_3d-4-26-2020.json"
  else if dataset = "mp_3d" then
    catalogHit "https://ndownloader.figshare.com/files/24979850" "CFID_mp_desc_data_84k.json"
  else if dataset = "mp_3d_2020" then
    catalogHit "https://ndownloader.figshare.com/files/26791259" "all_mp.json"
  else if dataset = "megnet" then
    catalogHit "https://ndownloader.figshare.com/files/26724977" "megnet.json"
  else if dataset = "oqmd_3d" then
    catalogHit "https://ndownloader.figshare.com/files/24981170" "CFID_OQMD_460k.json"
  else if dataset = "oqmd_3d_no_cfid" then
    catalogHit "https://ndownloader.figshare.com/files/26790182" "all_oqmd.json"
  else if dataset = "twod_matpd" then
    catalogHit "https://ndownloader.figshare.com/files/26789006" "twodmatpd.json"
  else if dataset = "qm9" then
    catalogHit "https://ndownloader.figshare.com/files/25159592" "qm9_data_cfid.json"
  else if dataset = "aflow1" then
    catalogHit "https://ndownloader.figshare.com/files/25453256" "CFID_AFLOW1.json"
  else if dataset = "aflow2" then
    catalogHit "https://ndownloader.figshare.com/files/25453265" "CFID_AFLOW2.json"
  else if dataset = "arXiv" then
    catalogHit "https://ndownloader.figshare.com/files/26804795" "arXivdataset.json"
  else if dataset = "cord19" then
    catalogHit "https://ndownloader.figshare.com/files/26804798" "cord19.json"
  else if dataset = "raw_files" then
    catalogHit "https://ndownloader.figshare.com/files/25295732" "figshare_data-10-28-2020.json"
  else
    ⟨true, false, none, none, false⟩

/-- Every name the `if`/`elif` chain of `datasets` recognises. -/
def dispatchNames : List String :=
  ["dft_2d", "dft_3d", "stm_2d", "cfid_3d", "mp_3d", "mp_3d_2020", "megnet",
   "oqmd_3d", "oqmd_3d_no_cfid", "twod_matpd", "qm9", "aflow1", "aflow2",
   "arXiv", "cord19", "raw_files"]

/-- The catalog of `datasets`: every name that is mapped to a
(download URL, cached filename) pair, with that pair. -/
def datasetCatalog : List (String × String × String) :=
  [("dft_2d", "https://ndownloader.figshare.com/files/22471019", "jdft_2d-4-26-2020.json"),
   ("dft_3d", "https://ndownloader.figshare.com/files/22471022", "jdft_3d-4-26-2020.json"),
   ("cfid_3d", "https://ndownloader.figshare.com/files/22470818", "jml_3d-4-26-2020.json"),
   ("mp_3d", "https://ndownloader.figshare.com/files/24979850", "CFID_mp_desc_data_84k.json"),
   ("mp_3d_2020", "https://ndownloader.figshare.com/files/26791259", "all_mp.json"),
   ("megnet", "https://ndownloader.figshare.com/files/26724977", "megnet.json"),
   ("oqmd_3d", "https://ndownloader.figshare.com/files/24981170", "CFID_OQMD_460k.json"),
   ("oqmd_3d_no_cfid", "https://ndownloader.figshare.com/files/26790182", "all_oqmd.json"),
   ("twod_matpd", "https://ndownloader.figshare.com/files/26789006", "twodmatpd.json"),
   ("qm9", "https://ndownloader.figshare.com/files/25159592", "qm9_data_cfid.json"),
   ("aflow1", "https://ndownloader.figshare.com/files/25453256", "CFID_AFLOW1.json"),
   ("aflow2", "https://ndownloader.figshare.com/files/25453265", "CFID_AFLOW2.json"),
   ("arXiv", "https://ndownloader.figshare.com/files/26804795", "arXivdataset.json"),
   ("cord19", "https://ndownloader.figshare.com/files/26804798", "cord19.json"),
   ("raw_files", "https://ndownloader.figshare.com/files/25295732", "figshare_data-10-28-2020.json")]

/-- C1: for every dataset name not recognised by the dispatch table,
`datasets` constructs a `ValueError` exception object but never raises it,
and execution reaches the `return` statement with `url` and `js_tag`
never assigned. -/
theorem datasets_unknown_dataset_no_raise (dataset : String)
    (h : dataset ∉ dispatchNames) :
    (datasets dataset).valueErrorConstructed = true ∧
    (datasets dataset).valueErrorRaised = false ∧
    (datasets dataset).url = none ∧ (datasets dataset).js_tag = none := by
  simp only [dispatchNames, List.mem_cons, List.mem_singleton, not_or] at h
  obtain ⟨h1, h2, h3, h4, h5, h6, h7, h8, h9, h10, h11, h12, h13, h14, h15, h16, -⟩ := h
  simp [datasets, h1, h2, h3, h4, h5, h6, h7, h8, h9, h10, h11, h12, h13, h14, h15, h16]

/-- Witness for C1 at the concrete unknown name `"qe_3d"`. -/
theorem datasets_unknown_dataset_no_raise_witness :
    (datasets "qe_3d").valueErrorConstructed = true ∧
    (datasets "qe_3d").valueErrorRaised = false ∧
    (datasets "qe_3d").url = none ∧ (datasets "qe_3d").js_tag = none :=
  datasets_unknown_dataset_no_raise "qe_3d" (by decide)

/-- C4: for every dataset name present in the catalog, `datasets` assigns
exactly the URL and cached filename that the catalog associates to that
name, raising nothing. -/
theorem datasets_catalog_lookup (p : String × String × String)
    (hp : p ∈ datasetCatalog) :
    datasets p.1 = catalogHit p.2.1 p.2.2 := by
  fin_cases hp <;> rfl

/-- Witness for C4 at `"dft_3d"`: the returned pair is
`("https://ndownloader.figshare.com/files/22471022", "jdft_3d-4-26-2020.json")`. -/
theorem datasets_catalog_lookup_witness :
    datasets "dft_3d" =
      catalogHit "https://ndownloader.figshare.com/files/22471022"
        "jdft_3d-4-26-2020.json" :=
  datasets_catalog_lookup
    ("dft_3d", "https://ndownloader.figshare.com/files/22471022",
      "jdft_3d-4-26-2020.json") (by decide)

/-! ## `jarvis/db/figshare.py` : the `data` download/cache function

The filesystem is an association list from paths to contents (a later
write shadows earlier bindings; removal deletes every binding).  The
network is an oracle mapping a URL to the member list of the downloaded
zip archive.  JSON decoding (`loadjson`) is abstracted by a partial
decoding function; `data` applies it to the raw file contents with no
further transformation. -/

/-- A filesystem: paths bound to file contents, most recent binding first. -/
def FSys := List (String × String)

/-- Read a file: the most recent binding of the path, if any. -/
def FSys.read (fs : FSys) (p : String) : Option String :=
  (List.find? (fun e => e.1 == p) fs).map (fun e => e.2)

/-- Embedding of `os.path.isfile`. -/
def FSys.isfile (fs : FSys) (p : String) : Bool :=
  (FSys.read fs p).isSome

/-- Write (create or overwrite) a file. -/
def FSys.write (fs : FSys) (p c : String) : FSys :=
  (p, c) :: fs

/-- Embedding of `os.remove`. -/
def FSys.removeFile (fs : FSys) (p : String) : FSys :=
  List.filter (fun e => e.1 != p) fs

/-- The directory `os.path.dirname(__file__)` of `figshare.py`. -/
def MODULE_DIR : String := "jarvis/db"

/-- Embedding of `os.path.join` for one component. -/
def pathJoin (a b : String) : String := a ++ "/" ++ b

/-- The observable side effects performed by `data`. -/
inductive FetchAction
  | httpGet (url : String)
  | writeFile (path : String)
  | extractAll (dir : String)
  | removeFile (path : String)
deriving DecidableEq

/-- Embedding of `jarvis.db.jsonutils.loadjson`: read the file at `path`
and decode its contents.  A missing file or undecodable contents raise. -/
def loadjson {α : Type} (decode : String → Option α) (fs : FSys) (path : String) :
    Except String α :=
  match FSys.read fs path with
  | none => Except.error "FileNotFoundError"
  | some c =>
    match decode c with
    | none => Except.error "JSONDecodeError"
    | some v => Except.ok v

/-- Embedding of `data` (`figshare.py` lines 135-163).  `net` maps a URL to
the member list `(name, contents)` of the zip archive served there.  The
result carries the final filesystem, the trace of performed effects, and
the decoded value (or the raised exception).  When the cached JSON file
exists the function performs no effect at all; otherwise it downloads the
archive to `tmp.zip`, extracts every member into the module directory,
removes `tmp.zip`, and only then decodes the cached file. -/
def data {α : Type} (decode : String → Option α)
    (net : String → List (String × String)) (fs : FSys) (dataset : String) :
    FSys × List FetchAction × Except String α :=
  match (datasets dataset).url, (datasets dataset).js_tag with
  | some url, some js_tag =>
    let path := pathJoin MODULE_DIR js_tag
    if FSys.isfile fs path then
      (fs, [], loadjson decode fs path)
    else
      let zfile := pathJoin MODULE_DIR "tmp.zip"
      let fs1 := FSys.write fs zfile "<zip-bytes>"
      let fs2 := (net url).foldl
        (fun acc m => FSys.write acc (pathJoin MODULE_DIR m.1) m.2) fs1
      let fs3 := FSys.removeFile fs2 zfile
      (fs3,
       [FetchAction.httpGet url, FetchAction.writeFile zfile,
        FetchAction.extractAll MODULE_DIR, FetchAction.removeFile zfile],
       loadjson decode fs3 path)
  | _, _ => (fs, [], Except.error "NameError: url")

/-- Removing a path removes it: reading it back yields nothing. -/
theorem FSys.read_removeFile (fs : FSys) (p : String) :
    FSys.read (FSys.removeFile fs p) p = none := by
  have h : List.find? (fun e => e.1 == p) (List.filter (fun e => e.1 != p) fs) = none := by
    rw [List.find?_eq_none]
    intro x hx
    have hxp := List.of_mem_filter hx
    simpa using hxp
  simp [FSys.read, FSys.removeFile, h]

/-- C7: when the cached JSON file for the dataset exists, `data` performs
no effect (in particular no HTTP fetch), leaves the filesystem unchanged
and returns the decoding of the cached contents; when it is absent, the
trace is exactly download, write of `tmp.zip`, extraction, removal of
`tmp.zip`, after which `tmp.zip` is gone and the cached file is decoded
from the post-extraction filesystem. -/
theorem data_cache_behavior {α : Type} (decode : String → Option α)
    (net : String → List (String × String)) (fs : FSys) (dataset url js_tag : String)
    (hu : (datasets dataset).url = some url)
    (ht : (datasets dataset).js_tag = some js_tag) :
    (FSys.isfile fs (pathJoin MODULE_DIR js_tag) = true →
      data decode net fs dataset =
        (fs, [], loadjson decode fs (pathJoin MODULE_DIR js_tag))) ∧
    (FSys.isfile fs (pathJoin MODULE_DIR js_tag) = false →
      (data decode net fs dataset).2.1 =
        [FetchAction.httpGet url, FetchAction.writeFile (pathJoin MODULE_DIR "tmp.zip"),
         FetchAction.extractAll MODULE_DIR,
         FetchAction.removeFile (pathJoin MODULE_DIR "tmp.zip")] ∧
      FSys.read (data decode net fs dataset).1 (pathJoin MODULE_DIR "tmp.zip") = none ∧
      (data decode net fs dataset).2.2 =
        loadjson decode (data decode net fs dataset).1 (pathJoin MODULE_DIR js_tag)) := by
  constructor
  · intro hfile
    simp [data, hu, ht, hfile]
  · intro hfile
    refine ⟨by simp [data, hu, ht, hfile], ?_, by simp [data, hu, ht, hfile]⟩
    simp only [data, hu, ht, hfile, Bool.false_eq_true, if_false]
    exact FSys.read_removeFile _ _

/-- Witness for C7 at `"dft_2d"`: with the cached file present `data`
returns it unchanged with an empty trace; with it absent the trace is
fetch, write, extract, remove. -/
theorem data_cache_behavior_witness :
    (data (fun s => some s) (fun _ => [("jdft_2d-4-26-2020.json", "[1,2]")])
        [("jarvis/db/jdft_2d-4-26-2020.json", "[0]")] "dft_2d" =
      ([("jarvis/db/jdft_2d-4-26-2020.json", "[0]")], [],
        loadjson (fun s => some s) [("jarvis/db/jdft_2d-4-26-2020.json", "[0]")]
          (pathJoin MODULE_DIR "jdft_2d-4-26-2020.json"))) ∧
    (data (fun s => some s) (fun _ => [("jdft_2d-4-26-2020.json", "[1,2]")])
        [] "dft_2d").2.1 =
      [FetchAction.httpGet "https://ndownloader.figshare.com/files/22471019",
       FetchAction.writeFile (pathJoin MODULE_DIR "tmp.zip"),
       FetchAction.extractAll MODULE_DIR,
       FetchAction.removeFile (pathJoin MODULE_DIR "tmp.zip")] :=
  ⟨(data_cache_behavior (fun s => some s)
      (fun _ => [("jdft_2d-4-26-2020.json", "[1,2]")])
      [("jarvis/db/jdft_2d-4-26-2020.json", "[0]")] "dft_2d"
      "https://ndownloader.figshare.com/files/22471019" "jdft_2d-4-26-2020.json"
      rfl rfl).1 rfl,
   ((data_cache_behavior (fun s => some s)
      (fun _ => [("jdft_2d-4-26-2020.json", "[1,2]")])
      [] "dft_2d"
      "https://ndownloader.figshare.com/files/22471019" "jdft_2d-4-26-2020.json"
      rfl rfl).2 rfl).1⟩

/-! ## `jarvis/db/figshare.py` : the specialized record fetchers

`get_wann_electron` and `get_wann_phonon` scan the pre-fetched raw-file
index `fls` for an entry whose zip name matches the requested material
identifier.  The download-and-parse pipeline executed on a match (HTTP
fetch, zip extraction, `WannierHam`/`Poscar`/`Vasprun` construction) is
abstracted by oracle functions from the matched index entry to the
constructed objects; the control flow, the local-variable initialization
and the exception behavior are embedded exactly. -/

/-- An entry of the raw-file index `fls`. -/
structure WannEntry where
  name : String
  download_url : String
deriving DecidableEq

/-- The longest prefix of `s` before the first occurrence of the
(non-empty) separator `sep`: Python's `s.split(sep)[0]`. -/
def pySplitFirst (sep : List Char) : List Char → List Char
  | [] => []
  | c :: rest =>
    if List.isPrefixOf sep (c :: rest) then []
    else c :: pySplitFirst sep rest

/-- Embedding of `i["name"].split(".zip")[0]`. -/
def zipBaseName (i : WannEntry) : String :=
  List.asString (pySplitFirst ".zip".data i.name.data)

/-- Embedding of `get_wann_electron` (`figshare.py` lines 190-215).
Locals `w` and `ef` are initialized to the string `""` (`Sum.inl ""`) and
overwritten with fetched objects (`Sum.inr`) on a match; local `atoms` is
never initialized, so it is an `Option` starting at `none`.  The final
`return w, ef, atoms` raises `NameError` when `atoms` was never assigned. -/
def get_wann_electron {α β γ : Type} (fetchW : WannEntry → α)
    (fetchEf : WannEntry → β) (fetchAtoms : WannEntry → γ)
    (fls_WANN : List WannEntry) (jid : String) :
    Except String ((String ⊕ α) × (String ⊕ β) × γ) :=
  let final := fls_WANN.foldl
    (fun st i =>
      if zipBaseName i = jid then
        (Sum.inr (fetchW i), Sum.inr (fetchEf i), some (fetchAtoms i))
      else st)
    (Sum.inl "", Sum.inl "", none)
  match final.2.2 with
  | some a => Except.ok (final.1, final.2.1, a)
  | none => Except.error "NameError: name atoms is not defined"

/-- Embedding of `get_wann_phonon` (`figshare.py` lines 218-242).  Index
items may be non-dicts (`none`); a dict item whose zip name matches makes
the function return the fetched pair at once, and a completed loop falls
off the end of the function, returning Python's `None`. -/
def get_wann_phonon {δ : Type} (fetch : WannEntry → δ)
    (fls_FDELAST : List (Option WannEntry)) (jid : String) : Option δ :=
  match fls_FDELAST with
  | [] => none
  | i :: rest =>
    match i with
    | some e =>
      if zipBaseName e = jid then some (fetch e)
      else get_wann_phonon fetch rest jid
    | none => get_wann_phonon fetch rest jid

/-- A fold step that only fires on a matching entry leaves the state
unchanged over a list with no matching entry. -/
theorem wann_foldl_no_match {α β γ : Type} (fetchW : WannEntry → α)
    (fetchEf : WannEntry → β) (fetchAtoms : WannEntry → γ)
    (l : List WannEntry) (jid : String)
    (h : ∀ i ∈ l, zipBaseName i ≠ jid)
    (st : (String ⊕ α) × (String ⊕ β) × Option γ) :
    l.foldl
      (fun st i =>
        if zipBaseName i = jid then
          (Sum.inr (fetchW i), Sum.inr (fetchEf i), some (fetchAtoms i))
        else st) st = st := by
  induction l generalizing st with
  | nil => rfl
  | cons a t ih =>
    have ha : zipBaseName a ≠ jid := h a (List.mem_cons_self a t)
    simp only [List.foldl_cons, if_neg ha]
    exact ih (fun i hi => h i (List.mem_cons_of_mem a hi)) st

/-- C6 counterexample: with an index whose only entry does not match the
requested identifier, `get_wann_electron` does raise an exception of its
own (the local `atoms` is never assigned, so the `return` statement fails
with a name error) instead of returning its initialized values. -/
theorem get_wann_electron_unbound_atoms_counterexample :
    get_wann_electron (fun _ => ()) (fun _ => ()) (fun _ => ())
      [⟨"JVASP-1002.zip", "https://example.org/1002"⟩] "JVASP-816" =
      Except.error "NameError: name atoms is not defined" := by
  rfl

/-- C6 amended: non-matching index entries are silently skipped and the
loop itself raises nothing; when no entry matches, `get_wann_phonon`
returns `None` but `get_wann_electron` raises a name error at its `return`
statement because `atoms` was never assigned (only `w` and `ef` hold their
initialized values); when some entry matches, `get_wann_electron` returns
the objects fetched from the last matching entry. -/
theorem wann_fetchers_no_match_behavior {α β γ δ : Type}
    (fetchW : WannEntry → α) (fetchEf : WannEntry → β)
    (fetchAtoms : WannEntry → γ) (fetch : WannEntry → δ)
    (fls_WANN : List WannEntry) (fls_FDELAST : List (Option WannEntry))
    (jid : String) :
    ((∀ i ∈ fls_WANN, zipBaseName i ≠ jid) →
      get_wann_electron fetchW fetchEf fetchAtoms fls_WANN jid =
        Except.error "NameError: name atoms is not defined") ∧
    ((∀ i ∈ fls_FDELAST, ∀ e, i = some e → zipBaseName e ≠ jid) →
      get_wann_phonon fetch fls_FDELAST jid = none) ∧
    (∀ (l1 l2 : List WannEntry) (e : WannEntry),
      fls_WANN = l1 ++ e :: l2 → zipBaseName e = jid →
      (∀ i ∈ l2, zipBaseName i ≠ jid) →
      get_wann_electron fetchW fetchEf fetchAtoms fls_WANN jid =
        Except.ok (Sum.inr (fetchW e), Sum.inr (fetchEf e), fetchAtoms e)) := by
  refine ⟨?_, ?_, ?_⟩
  · intro h
    unfold get_wann_electron
    rw [wann_foldl_no_match fetchW fetchEf fetchAtoms fls_WANN jid h]
  · intro h
    induction fls_FDELAST with
    | nil => rfl
    | cons i rest ih =>
      match i with
      | some e =>
        have he : zipBaseName e ≠ jid := h (some e) (List.mem_cons_self _ _) e rfl
        simp only [get_wann_phonon, if_neg he]
        exact ih (fun i hi e' he' => h i (List.mem_cons_of_mem _ hi) e' he')
      | none =>
        simp only [get_wann_phonon]
        exact ih (fun i hi e' he' => h i (List.mem_cons_of_mem _ hi) e' he')
  · intro l1 l2 e hsplit hmatch hafter
    subst hsplit
    unfold get_wann_electron
    rw [List.foldl_append, List.foldl_cons, if_pos hmatch,
      wann_foldl_no_match fetchW fetchEf fetchAtoms l2 jid hafter]

/-- Witness for the amended C6 at concrete inputs: a one-entry electron
index with no match raises the name error; a phonon index of one non-dict
and one non-matching dict returns `None`; an electron index whose last
entry matches returns the objects fetched from it. -/
theorem wann_fetchers_no_match_behavior_witness :
    (get_wann_electron (fun _ => ()) (fun _ => ()) (fun e => e.name)
      [⟨"JVASP-1002.zip", "u"⟩] "JVASP-816" =
      Except.error "NameError: name atoms is not defined") ∧
    (get_wann_phonon (fun e => e.name)
      [none, some ⟨"JVASP-1002.zip", "u"⟩] "JVASP-816" = none) ∧
    (get_wann_electron (fun _ => ()) (fun _ => ()) (fun e => e.name)
      [⟨"JVASP-1002.zip", "u"⟩, ⟨"JVASP-816.zip", "v"⟩] "JVASP-816" =
      Except.ok (Sum.inr (), Sum.inr (), "JVASP-816.zip")) :=
  ⟨(wann_fetchers_no_match_behavior (fun _ => ()) (fun _ => ()) (fun e => e.name)
      (fun e => e.name) [⟨"JVASP-1002.zip", "u"⟩] [] "JVASP-816").1 (by decide),
   (wann_fetchers_no_match_behavior (fun _ => ()) (fun _ => ()) (fun e => e.name)
      (fun e => e.name) [] [none, some ⟨"JVASP-1002.zip", "u"⟩] "JVASP-816").2.1
      (by decide),
   (wann_fetchers_no_match_behavior (fun _ => ()) (fun _ => ()) (fun e => e.name)
      (fun e => e.name) [⟨"JVASP-1002.zip", "u"⟩, ⟨"JVASP-816.zip", "v"⟩]
      [] "JVASP-816").2.2 [⟨"JVASP-1002.zip", "u"⟩] [] ⟨"JVASP-816.zip", "v"⟩
      rfl (by decide) (by decide)⟩

/-! ## `jarvis/io/phono3py/outputs.py` : the `Kappa` class

The hdf5 result file is modelled by the fields read from it: the list of
temperatures and the `kappa` array, one row of tensor components per
temperature.  Numeric values are rationals.  Out-of-range indexing of the
stored array raises, as in Python. -/

/-- State of a `Kappa` object: `temperatures` as set up by `__init__`,
the stored `self.dict["kappa"]` array (one row per temperature), and the
requested output format. -/
structure Kappa where
  temperatures : List ℚ
  kappaRows : List (List ℚ)
  kappa_format : String

/-- A value returned by `Kappa.kappa`: the full tensor row, its first
component, or Python's implicit `None` (for an unrecognised format). -/
inductive KappaValue
  | tensor (row : List ℚ)
  | scalar (x : ℚ)
  | pyNone
deriving DecidableEq

/-- Embedding of `Kappa.kappa` (`outputs.py` lines 98-105): raise a
generic `Exception` when `T` is not among the stored temperatures,
otherwise return the kappa row at the index of `T` (full row for
`"tensor"`, first component for `"scalar_xx"`, `None` otherwise). -/
def Kappa.kappa (self : Kappa) (T : ℚ) : Except String KappaValue :=
  if T ∉ self.temperatures then
    Except.error "Kappa not evaluated at this temperature."
  else
    let T_indx := self.temperatures.indexOf T
    if self.kappa_format = "tensor" then
      match self.kappaRows.get? T_indx with
      | some row => Except.ok (KappaValue.tensor row)
      | none => Except.error "IndexError"
    else if self.kappa_format = "scalar_xx" then
      match self.kappaRows.get? T_indx with
      | some row =>
        match row.get? 0 with
        | some x => Except.ok (KappaValue.scalar x)
        | none => Except.error "IndexError"
      | none => Except.error "IndexError"
    else Except.ok KappaValue.pyNone

/-- C5: `Kappa.kappa` raises the generic exception exactly on a
temperature missing from `self.temperatures`; on a stored temperature it
does not raise and returns the kappa entry at the index of `T` — the full
row under the `"tensor"` format, its first component under `"scalar_xx"`
(the hypotheses `hrow`, `hx` say that the stored array does have an entry
at that index, which holds for every well-formed result file). -/
theorem kappa_missing_temperature_raises (self : Kappa) (T : ℚ)
    (row : List ℚ) (x : ℚ) :
    (T ∉ self.temperatures →
      self.kappa T = Except.error "Kappa not evaluated at this temperature.") ∧
    (T ∈ self.temperatures →
      self.kappaRows[self.temperatures.indexOf T]? = some row →
      (self.kappa_format = "tensor" →
        self.kappa T = Except.ok (KappaValue.tensor row)) ∧
      (self.kappa_format = "scalar_xx" → row[0]? = some x →
        self.kappa T = Except.ok (KappaValue.scalar x))) := by
  refine ⟨fun hout => ?_, fun hin hrow => ⟨fun hfmt => ?_, fun hfmt hx => ?_⟩⟩
  · simp [Kappa.kappa, hout]
  · simp [Kappa.kappa, hin, hrow, hfmt]
  · have hne : self.kappa_format ≠ "tensor" := by
      rw [hfmt]; decide
    simp [Kappa.kappa, hin, hrow, hfmt, hne, hx]

/-- Witness for C5 on the concrete object with temperatures `[200, 300]`,
rows `[[7, 8], [5, 6]]` and format `"scalar_xx"`: `kappa 250` raises the
generic exception, `kappa 300` returns the first component `5` of the
stored row. -/
theorem kappa_missing_temperature_raises_witness :
    (Kappa.kappa ⟨[200, 300], [[7, 8], [5, 6]], "scalar_xx"⟩ 250 =
      Except.error "Kappa not evaluated at this temperature.") ∧
    (Kappa.kappa ⟨[200, 300], [[7, 8], [5, 6]], "scalar_xx"⟩ 300 =
      Except.ok (KappaValue.scalar 5)) :=
  ⟨(kappa_missing_temperature_raises ⟨[200, 300], [[7, 8], [5, 6]], "scalar_xx"⟩
      250 [] 0).1 (by decide),
   ((kappa_missing_temperature_raises ⟨[200, 300], [[7, 8], [5, 6]], "scalar_xx"⟩
      300 [5, 6] 5).2 (by decide) (by decide)).2 rfl (by decide)⟩

/-! ## `jarvis/io/phono3py/outputs.py` : `JDOS.select_jdos`

Lines 181-191 of `outputs.py`: per irreducible grid point the `.dat` file
provides a frequency column `freq` and a JDOS column `N2` (the sum of the
N1- and N2-process columns); each branch frequency is binned with
`np.digitize` and the selected value is the average
`(N2[i] + N2[i - 1]) / 2`.  The file parsing (`np.genfromtxt`) is
abstracted: `freq` and `N2` are inputs.  `np.digitize` on monotonically
increasing bins and numpy integer indexing (with negative wrap-around)
are modelled exactly. -/

/-- `np.digitize(x, bins)` for monotonically increasing `bins`: the number
of bin edges that are `≤ x`. -/
def digitize (x : ℚ) (bins : List ℚ) : ℕ :=
  (bins.filter (fun b => decide (b ≤ x))).length

/-- Numpy array indexing with a possibly negative index: a negative `i`
counts from the end of the array. -/
def npGet (xs : List ℚ) (i : ℤ) : ℚ :=
  if i < 0 then xs.getD ((xs.length : ℤ) + i).toNat 0
  else xs.getD i.toNat 0

/-- Embedding of the list comprehension
`[(N2[i] + N2[i - 1]) / 2 for i in indices]` of `select_jdos`, where
`indices = np.digitize(self.mesh_dict["frequencies"][g], freq)`. -/
def select_jdos_vals (freq N2 : List ℚ) (branch_freqs : List ℚ) : List ℚ :=
  branch_freqs.map (fun f =>
    (npGet N2 (digitize f freq : ℤ) + npGet N2 ((digitize f freq : ℤ) - 1)) / 2)

/-- C10: for a branch frequency lying below the first frequency bin edge,
`np.digitize` returns `0`, and the selected JDOS value is the average of
`N2[0]` and `N2[-1]` — the last element of the array, reached through
negative-index wrap-around — not an average of adjacent bins. -/
theorem select_jdos_below_first_bin_wraparound (f0 : ℚ) (rest : List ℚ)
    (N2 : List ℚ) (f : ℚ) (hsorted : List.Sorted (· ≤ ·) (f0 :: rest))
    (hf : f < f0) (hN2 : N2 ≠ []) :
    digitize f (f0 :: rest) = 0 ∧
    select_jdos_vals (f0 :: rest) N2 [f] =
      [(N2.getD 0 0 + N2.getD (N2.length - 1) 0) / 2] := by
  have hall : ∀ b ∈ f0 :: rest, ¬ b ≤ f := by
    intro b hb
    rcases List.mem_cons.mp hb with hb0 | hbr
    · subst hb0; exact not_le.mpr hf
    · have hle : f0 ≤ b := (List.sorted_cons.mp hsorted).1 b hbr
      exact not_le.mpr (lt_of_lt_of_le hf hle)
  have hdig : digitize f (f0 :: rest) = 0 := by
    unfold digitize
    rw [List.length_eq_zero, List.filter_eq_nil_iff]
    intro b hb
    simpa using hall b hb
  refine ⟨hdig, ?_⟩
  have hlen : 1 ≤ N2.length := by
    cases N2 with
    | nil => exact absurd rfl hN2
    | cons a t => simp
  unfold select_jdos_vals
  rw [List.map_singleton]
  have hneg : npGet N2 ((digitize f (f0 :: rest) : ℤ) - 1) =
      N2.getD (N2.length - 1) 0 := by
    rw [hdig]
    have hlt : ((0 : ℤ) - 1) < 0 := by decide
    have htn : ((N2.length : ℤ) + (0 - 1)).toNat = N2.length - 1 := by omega
    simp only [npGet, Nat.cast_zero, if_pos hlt, htn]
  have hz : npGet N2 ((digitize f (f0 :: rest) : ℤ)) = N2.getD 0 0 := by
    rw [hdig]
    simp [npGet]
  rw [hneg, hz]

/-- Witness for C10: bins `[1, 2, 3]`, JDOS values `[10, 20, 30]` and the
below-range branch frequency `0` give `digitize = 0` and the selected
value `(10 + 30) / 2 = 20`, wrapping around to the last element `30`. -/
theorem select_jdos_below_first_bin_wraparound_witness :
    digitize 0 [1, 2, 3] = 0 ∧
    select_jdos_vals [1, 2, 3] [10, 20, 30] [0] =
      [(List.getD [10, 20, 30] 0 0 +
        List.getD [10, 20, 30] (List.length [10, 20, 30] - 1) 0) / 2] :=
  select_jdos_below_first_bin_wraparound 1 [2, 3] [10, 20, 30] 0
    (by decide) (by decide) (by decide)

/-! ## `jarvis/io/phono3py/inputs.py` : command-string generation

`prepare_jdos` (lines 13-78) assembles a `phono3py` shell command by
string concatenation.  The irreducible grid points produced by
`spglib.get_ir_reciprocal_mesh` and the supercell dimensions taken from
the phonopy object are inputs of the embedding; the numeric lists are
joined exactly as the source does with `" ".join(str(d) for d in l)`. -/

/-- Python's `sep.join(xs)`. -/
def pyJoin (sep : String) : List String → String
  | [] => ""
  | [x] => x
  | x :: xs => x ++ sep ++ pyJoin sep xs

/-- `" ".join(str(d) for d in l)` for a list of naturals. -/
def natJoin (l : List ℕ) : String :=
  pyJoin " " (l.map Nat.repr)

/-- Number of double-quote characters in a string. -/
def countQuotes (s : String) : ℕ :=
  s.data.count '\"'

/-- Embedding of the command string built by `prepare_jdos`
(`inputs.py` lines 53-73): the base command, then the `--ts` part when
`temperatures` is not `None`, then the `--pa` part when `pa` is not
`None`. -/
def prepare_jdos_cmd (dim mesh : List ℕ) (poscar : String)
    (gridpt_uids : List ℕ) (num_freq_points : ℕ)
    (temperatures : Option (List ℕ)) (pa : Option (List ℕ)) : String :=
  let base := "phono3py --fc2 --dim=\"" ++ natJoin dim
    ++ "\" --mesh=\"" ++ natJoin mesh
    ++ "\" -c " ++ poscar ++ " --jdos"
    ++ " --gp=\"" ++ natJoin gridpt_uids
    ++ "\" --num-freq-points=" ++ Nat.repr num_freq_points
  let cmd1 :=
    match temperatures with
    | some ts => base ++ "\" --ts=\"" ++ natJoin ts
    | none => base
  match pa with
  | some p => cmd1 ++ " --pa= \"" ++ natJoin p ++ "\""
  | none => cmd1

/-- A decimal digit character is never a double quote. -/
theorem digitChar_ne_quote (m : ℕ) (h : m < 10) : Nat.digitChar m ≠ '\"' := by
  interval_cases m <;> decide

/-- `Nat.toDigitsCore` in base 10 adds only digit characters to its
accumulator. -/
theorem toDigitsCore_quote_not_mem :
    ∀ (fuel n : ℕ) (ds : List Char), '\"' ∉ ds →
      '\"' ∉ Nat.toDigitsCore 10 fuel n ds := by
  intro fuel
  induction fuel with
  | zero => intro n ds h; exact h
  | succ fuel ih =>
    intro n ds h
    have hd : '\"' ∉ Nat.digitChar (n % 10) :: ds := by
      intro hmem
      rcases List.mem_cons.mp hmem with heq | hds
      · exact digitChar_ne_quote (n % 10) (Nat.mod_lt n (by omega)) heq.symm
      · exact h hds
    simp only [Nat.toDigitsCore]
    split
    · exact hd
    · exact ih (n / 10) (Nat.digitChar (n % 10) :: ds) hd

/-- `str(n)` for a natural number contains no double quote. -/
theorem countQuotes_natRepr (n : ℕ) : countQuotes (Nat.repr n) = 0 := by
  have h : '\"' ∉ (Nat.repr n).data :=
    toDigitsCore_quote_not_mem (n + 1) n [] (by simp)
  simpa [countQuotes] using List.count_eq_zero.mpr h

/-- Quote characters add up under string concatenation. -/
theorem countQuotes_append (a b : String) :
    countQuotes (a ++ b) = countQuotes a + countQuotes b := by
  simp [countQuotes, String.data_append, List.count_append]

/-- A space-join of printed naturals contains no double quote. -/
theorem countQuotes_natJoin (l : List ℕ) : countQuotes (natJoin l) = 0 := by
  unfold natJoin
  induction l with
  | nil => rfl
  | cons a t ih =>
    cases t with
    | nil => simpa [pyJoin] using countQuotes_natRepr a
    | cons b t' =>
      simp only [List.map_cons, pyJoin, countQuotes_append] at ih ⊢
      simp [countQuotes_natRepr, ih]
      rfl

/-- C9 counterexample: at concrete inputs with a quote-free POSCAR path
and `pa = None`, the command built with `temperatures = [300]` contains
eight double-quote characters — an even number, not an odd one. -/
theorem prepare_jdos_quote_count_counterexample :
    countQuotes (prepare_jdos_cmd [2, 2, 2] [11, 11, 11] "POSCAR-unitcell"
      [0, 1] 201 (some [300]) none) = 8 ∧
    ¬ Odd (countQuotes (prepare_jdos_cmd [2, 2, 2] [11, 11, 11]
      "POSCAR-unitcell" [0, 1] 201 (some [300]) none)) := by
  constructor
  · rfl
  · rw [show countQuotes (prepare_jdos_cmd [2, 2, 2] [11, 11, 11]
      "POSCAR-unitcell" [0, 1] 201 (some [300]) none) = 8 from rfl]
    decide

/-- C9 amended: with a non-`None` temperatures list, `prepare_jdos`
appends the literal text `" --ts="` — with its stray leading double quote
— immediately after the `--num-freq-points` flag; the resulting command
with `pa = None` contains `8 + countQuotes poscar` double quotes (even for
any quote-free POSCAR path, not odd), whereas with `temperatures = None`
it contains `6 + countQuotes poscar` (balanced). -/
theorem prepare_jdos_stray_quote (dim mesh : List ℕ) (poscar : String)
    (gridpt_uids : List ℕ) (num_freq_points : ℕ) (ts : List ℕ) :
    prepare_jdos_cmd dim mesh poscar gridpt_uids num_freq_points (some ts) none =
      prepare_jdos_cmd dim mesh poscar gridpt_uids num_freq_points none none
        ++ "\" --ts=\"" ++ natJoin ts ∧
    countQuotes (prepare_jdos_cmd dim mesh poscar gridpt_uids
      num_freq_points (some ts) none) = 8 + countQuotes poscar ∧
    countQuotes (prepare_jdos_cmd dim mesh poscar gridpt_uids
      num_freq_points none none) = 6 + countQuotes poscar := by
  refine ⟨rfl, ?_, ?_⟩
  · simp only [prepare_jdos_cmd, countQuotes_append, countQuotes_natJoin,
      countQuotes_natRepr]
    have h1 : countQuotes "phono3py --fc2 --dim=\"" = 1 := rfl
    have h2 : countQuotes "\" --mesh=\"" = 2 := rfl
    have h3 : countQuotes "\" -c " = 1 := rfl
    have h4 : countQuotes " --jdos" = 0 := rfl
    have h5 : countQuotes " --gp=\"" = 1 := rfl
    have h6 : countQuotes "\" --num-freq-points=" = 1 := rfl
    have h7 : countQuotes "\" --ts=\"" = 2 := rfl
    rw [h1, h2, h3, h4, h5, h6, h7]
    omega
  · simp only [prepare_jdos_cmd, countQuotes_append, countQuotes_natJoin,
      countQuotes_natRepr]
    have h1 : countQuotes "phono3py --fc2 --dim=\"" = 1 := rfl
    have h2 : countQuotes "\" --mesh=\"" = 2 := rfl
    have h3 : countQuotes "\" -c " = 1 := rfl
    have h4 : countQuotes " --jdos" = 0 := rfl
    have h5 : countQuotes " --gp=\"" = 1 := rfl
    have h6 : countQuotes "\" --num-freq-points=" = 1 := rfl
    rw [h1, h2, h3, h4, h5, h6]
    omega

/-! ## `jarvis/io/phono3py/inputs.py` : `prepare_gruneisen_quasiharmonic`

Lines 84-101: the original POSCAR is read and split into lines
(`pos_text`), the scale on its second line is multiplied by `scale` for
the `POSCAR-plus` file and divided by `scale` for the `POSCAR-minus`
file, and each file is written as the `"\n"`-join of the updated line
list.  Python's `float()` parsing and `str()` printing of the scale value
are abstracted by the oracle functions `toFloat` and `toStr`; the numeric
value is a rational. -/

/-- Embedding of `prepare_gruneisen_quasiharmonic` (`inputs.py` lines
84-101), returning the line lists of the written `POSCAR-plus` and
`POSCAR-minus` files (each file's contents are the `"\n"`-join,
`pyJoin "\n"`, of its list).  A POSCAR with fewer than two lines makes
`pos_text[1]` raise. -/
def prepare_gruneisen_quasiharmonic (toFloat : String → ℚ) (toStr : ℚ → String)
    (pos_text : List String) (scale : ℚ) :
    Except String (List String × List String) :=
  match pos_text[1]? with
  | none => Except.error "IndexError: list index out of range"
  | some line1 =>
    let scale_plus := toFloat line1 * scale
    let scale_minus := toFloat line1 / scale
    let plus_text := pos_text.set 1 (toStr scale_plus)
    let minus_text := plus_text.set 1 (toStr scale_minus)
    Except.ok (plus_text, minus_text)

/-- C8: for a POSCAR with at least two lines, the `POSCAR-plus` line list
carries the original scale multiplied by `scale` on its second line and
the `POSCAR-minus` line list the original scale divided by `scale`, and
every other line of both equals the corresponding original line. -/
theorem prepare_gruneisen_quasiharmonic_lines (toFloat : String → ℚ)
    (toStr : ℚ → String) (pos_text : List String) (scale : ℚ) (line1 : String)
    (h : pos_text[1]? = some line1) :
    prepare_gruneisen_quasiharmonic toFloat toStr pos_text scale =
      Except.ok (pos_text.set 1 (toStr (toFloat line1 * scale)),
        pos_text.set 1 (toStr (toFloat line1 / scale))) ∧
    (pos_text.set 1 (toStr (toFloat line1 * scale)))[1]? =
      some (toStr (toFloat line1 * scale)) ∧
    (pos_text.set 1 (toStr (toFloat line1 / scale)))[1]? =
      some (toStr (toFloat line1 / scale)) ∧
    ∀ n : ℕ, n ≠ 1 →
      (pos_text.set 1 (toStr (toFloat line1 * scale)))[n]? = pos_text[n]? ∧
      (pos_text.set 1 (toStr (toFloat line1 / scale)))[n]? = pos_text[n]? := by
  have hlen : 1 < pos_text.length := by
    by_contra hcon
    rw [List.getElem?_eq_none (by omega)] at h
    exact Option.noConfusion h
  refine ⟨?_, ?_, ?_, ?_⟩
  · simp only [prepare_gruneisen_quasiharmonic, h, List.set_set]
  · exact List.getElem?_set_self hlen
  · exact List.getElem?_set_self hlen
  · intro n hn
    exact ⟨List.getElem?_set_ne (fun he => hn he.symm),
      List.getElem?_set_ne (fun he => hn he.symm)⟩

/-- Witness for C8 on a concrete three-line POSCAR with original scale
parsed as `3` and `scale = 2`: the plus file's second line shows `6`, the
minus file's `3/2`, and the first line is untouched. -/
theorem prepare_gruneisen_quasiharmonic_lines_witness :
    prepare_gruneisen_quasiharmonic (fun _ => (3 : ℚ)) (fun q => toString q)
      ["Si", "1.0", "0 0 0"] 2 =
      Except.ok ((["Si", "1.0", "0 0 0"]).set 1 (toString ((3 : ℚ) * 2)),
        (["Si", "1.0", "0 0 0"]).set 1 (toString ((3 : ℚ) / 2))) ∧
    ((["Si", "1.0", "0 0 0"]).set 1 (toString ((3 : ℚ) * 2)))[0]? =
      (["Si", "1.0", "0 0 0"] : List String)[0]? :=
  ⟨(prepare_gruneisen_quasiharmonic_lines (fun _ => (3 : ℚ))
      (fun q => toString q) ["Si", "1.0", "0 0 0"] 2 "1.0" rfl).1,
   ((prepare_gruneisen_quasiharmonic_lines (fun _ => (3 : ℚ))
      (fun q => toString q) ["Si", "1.0", "0 0 0"] 2 "1.0" rfl).2.2.2 0
      (by decide)).1⟩

/-! ## `jarvis/db/figshare.py` : `get_hk_tb`

Lines 245-256: the Wannier tight-binding Hamiltonian at a wavevector.
A `WannierHam` object `w` carries the lattice-vector array `w.R` (one
3-vector per row), the flattened real-space Hamiltonian rows `w.HR` (one
vector of length `nwan * nwan` per lattice vector) and the band count
`w.nwan`.  Matrix entries are complex numbers; `np.reshape` to an
`nwan × nwan` matrix is row-major, as in numpy. -/

/-- Row-major position of entry `(a, b)` in a flattened `n × n` matrix. -/
def flatIndex {n : ℕ} (a b : Fin n) : Fin (n * n) :=
  ⟨a.1 * n + b.1, by
    have ha : a.1 + 1 ≤ n := a.2
    calc a.1 * n + b.1 < a.1 * n + n := Nat.add_lt_add_left b.2 _
    _ = (a.1 + 1) * n := by ring
    _ ≤ n * n := Nat.mul_le_mul_right n ha⟩

/-- `np.reshape(v, (n, n))` for a vector of length `n * n`. -/
def reshape (n : ℕ) (v : Fin (n * n) → ℂ) : Matrix (Fin n) (Fin n) ℂ :=
  Matrix.of fun a b => v (flatIndex a b)

/-- A Wannier tight-binding Hamiltonian object as used by `get_hk_tb`. -/
structure WannierHam where
  nwan : ℕ
  nr : ℕ
  R : Fin nr → Fin 3 → ℝ
  HR : Fin nr → Fin (nwan * nwan) → ℂ

/-- The phase factors `exp_ikr = np.exp(1.0j * 2 * np.pi * np.sum(kmat * w.R, 1))`
of `get_hk_tb`: row `i` holds `exp(i·2π(k·R_i))`. -/
noncomputable def exp_ikr (k : Fin 3 → ℝ) (w : WannierHam) (i : Fin w.nr) : ℂ :=
  Complex.exp (Complex.I * 2 * Real.pi * ((∑ j, k j * w.R i j : ℝ) : ℂ))

/-- The accumulation loop of `get_hk_tb`:
`temp += exp_ikr[i] * w.HR[i, :]` over all rows, starting from zeros. -/
noncomputable def hk_temp (k : Fin 3 → ℝ) (w : WannierHam) :
    Fin (w.nwan * w.nwan) → ℂ :=
  (List.finRange w.nr).foldl
    (fun acc i => acc + fun m => exp_ikr k w i * w.HR i m) 0

/-- Embedding of `get_hk_tb` (`figshare.py` lines 245-256): accumulate the
phase-weighted flattened rows, reshape to `nwan × nwan`, and return
`(hk + hk.T.conj()) / 2.0` (elementwise division by the scalar `2.0` is
multiplication by `1/2`). -/
noncomputable def get_hk_tb (k : Fin 3 → ℝ) (w : WannierHam) :
    Matrix (Fin w.nwan) (Fin w.nwan) ℂ :=
  ((1 : ℂ) / 2) •
    (reshape w.nwan (hk_temp k w) + (reshape w.nwan (hk_temp k w)).conjTranspose)

/-- Modelled from the specification wording of C3: the discrete Fourier
sum `M = reshape(sum over r of exp(2*pi*i*(k . R_r)) * HR_r, (nwan, nwan))`. -/
noncomputable def fourier_sum_tb (k : Fin 3 → ℝ) (w : WannierHam) :
    Matrix (Fin w.nwan) (Fin w.nwan) ℂ :=
  reshape w.nwan (∑ i : Fin w.nr, fun m =>
    Complex.exp (2 * Real.pi * Complex.I * ((∑ j, k j * w.R i j : ℝ) : ℂ)) * w.HR i m)

/-- Modelled from the specification wording of C3: the Hermitian
symmetrization `(M + M^H) / 2` of the discrete Fourier sum. -/
noncomputable def get_hk_tb_spec (k : Fin 3 → ℝ) (w : WannierHam) :
    Matrix (Fin w.nwan) (Fin w.nwan) ℂ :=
  ((1 : ℂ) / 2) • (fourier_sum_tb k w + (fourier_sum_tb k w).conjTranspose)

/-- C2: the matrix returned by `get_hk_tb` is Hermitian — it equals its
own conjugate transpose. -/
theorem get_hk_tb_is_hermitian (k : Fin 3 → ℝ) (w : WannierHam) :
    (get_hk_tb k w).IsHermitian := by
  unfold Matrix.IsHermitian get_hk_tb
  rw [Matrix.conjTranspose_smul, Matrix.conjTranspose_add,
    Matrix.conjTranspose_conjTranspose, add_comm]
  congr 1
  simp

/-- Folding accumulation of `f` over a list equals the initial value plus
the sum of the mapped list. -/
theorem foldl_add_eq_sum {M β : Type} [AddCommMonoid M] (f : β → M) :
    ∀ (l : List β) (init : M),
      l.foldl (fun acc i => acc + f i) init = init + (l.map f).sum := by
  intro l
  induction l with
  | nil => intro init; simp
  | cons a t ih =>
    intro init
    simp only [List.foldl_cons, List.map_cons, List.sum_cons, ih, add_assoc]

/-- The accumulation loop of `get_hk_tb` computes the Fourier sum over
every row of `w.R`. -/
theorem hk_temp_eq_sum (k : Fin 3 → ℝ) (w : WannierHam) :
    hk_temp k w = ∑ i : Fin w.nr, (fun m => exp_ikr k w i * w.HR i m) := by
  unfold hk_temp
  rw [foldl_add_eq_sum, zero_add]
  exact (Fin.sum_univ_def _).symm

/-- C3: `get_hk_tb` equals the Hermitian symmetrization `(M + M^H)/2` of
the discrete Fourier sum
`M = reshape(sum over r of exp(2*pi*i*(k . R_r)) * HR_r, (nwan, nwan))`,
summed over every row of `w.R`. -/
theorem get_hk_tb_eq_spec (k : Fin 3 → ℝ) (w : WannierHam) :
    get_hk_tb k w = get_hk_tb_spec k w := by
  have hM : reshape w.nwan (hk_temp k w) = fourier_sum_tb k w := by
    unfold fourier_sum_tb
    rw [hk_temp_eq_sum]
    have hv : (∑ i : Fin w.nr, (fun m => exp_ikr k w i * w.HR i m)) =
        ∑ i : Fin w.nr, (fun m =>
          Complex.exp (2 * Real.pi * Complex.I *
            ((∑ j, k j * w.R i j : ℝ) : ℂ)) * w.HR i m) := by
      apply Finset.sum_congr rfl
      intro i _
      funext m
      unfold exp_ikr
      congr 2
      ring
    rw [hv]
  unfold get_hk_tb get_hk_tb_spec
  rw [hM]
